import Mathlib

/-!
Verification development for the solana-token-analysis repository.

The repository contains two near-duplicate scanner implementations,
`src/Scanner.py` (embedded below in namespace `Scanner0`) and
`src/scanner1.py` (namespace `Scanner1`), plus a thin CLI in `src/main.py`.

The remote data provider (the Arkham HTTP API reached through `_get`,
including the retry loop and `_normalize_transfers_list`) is modelled as an
oracle record `Provider`: each logical endpoint becomes a function from the
queried address to the already-normalized response.  Timestamps (ISO strings
in the source, compared lexicographically, which coincides with chronological
order for well-formed ISO strings) are modelled as natural-number epoch
seconds.  Python falsy-string handling (`if not x`, `x or y` on possibly
empty strings) is modelled by `truthyStr`, which collapses `none` and
`some ""`.  Python's stable `sorted(..., key=...)` is modelled by the stable
insertion sort `sortByKey`.
-/

/-- Collapses a Python-falsy string value: both an absent value and the empty
string are falsy, every other string is truthy. -/
def truthyStr : Option String → Option String
  | none => none
  | some s => if s = "" then none else some s

/-- Whether the character list `needle` is a leading segment of `hay`
(helper for Python's substring operator `in`). -/
def beginsWith : List Char → List Char → Bool
  | _, [] => true
  | [], _ :: _ => false
  | c :: cs, d :: ds => (c = d) && beginsWith cs ds

/-- Whether `needle` occurs contiguously anywhere in the character list
(Python's `needle in hay` on strings). -/
def containsSub (needle : List Char) : List Char → Bool
  | [] => beginsWith [] needle
  | c :: cs => beginsWith (c :: cs) needle || containsSub needle cs

/-- Python's substring test `needle in hay`. -/
def strContains (hay needle : String) : Bool :=
  containsSub needle.toList hay.toList

/-- Python's `str.lower()` on the ASCII entity/label names the scanners
compare (character-wise lowercasing). -/
def lowerStr (s : String) : String := String.mk (s.toList.map Char.toLower)

/-- Stable insertion used by `sortByKey`: `x` is placed before the first
element whose key is not smaller, so earlier-listed elements win ties,
exactly like Python's stable `sorted`. -/
def insertByKey {α : Type} (key : α → Nat) (x : α) : List α → List α
  | [] => [x]
  | y :: ys => if key y < key x then y :: insertByKey key x ys else x :: y :: ys

/-- Stable ascending sort by a `Nat` key; models Python's
`sorted(xs, key=...)`. -/
def sortByKey {α : Type} (key : α → Nat) : List α → List α
  | [] => []
  | x :: xs => insertByKey key x (sortByKey key xs)

/-- One normalized transfer record from the `/transfers` endpoint.  Fields
mirror the keys the scanners read: `fromAddress.address`,
`toAddress.address`, `blockTimestamp`, `fromAddressEntity.name`,
`fromAddressLabel.name` (the last two are only read by scanner1.py). -/
structure Transfer where
  fromAddr : Option String
  toAddr : Option String
  blockTimestamp : Option Nat
  fromEntityName : Option String
  fromLabelName : Option String
deriving DecidableEq, Repr, Inhabited

/-- Sort key used on transfer lists: the block timestamp (present on every
record that survives the `blockTimestamp` filter, so the default is never
reached on filtered lists). -/
def txKey (t : Transfer) : Nat := t.blockTimestamp.getD 0

/-- The `/intelligence/address/` response as the scanners read it:
`arkhamEntity` and `arkhamLabel`.  The outer `Option` is the Python
truthiness of the dict (`none` = key absent or falsy dict), the inner
`Option String` is the dict's `name` key. -/
structure IntelInfo where
  entity : Option (Option String)
  label : Option (Option String)
deriving DecidableEq, Repr

/-- The oracle for the remote data provider.  Each field is one logical
query the scanners issue; `none` / `[]` covers both an empty response and a
transport failure degraded to no data by `_get` and
`_normalize_transfers_list`. -/
structure Provider where
  transfersTo : String → List Transfer
  transfersBase : String → List Transfer
  transfersFrom : String → List Transfer
  history : String → Option (List (Option Nat))
  intelligence : String → Option IntelInfo
  now : Nat

/-- Python `entity.get('name', "Unknown") if entity else "Unknown"`. -/
def nameOrUnknown : Option (Option String) → String
  | none => "Unknown"
  | some n => n.getD "Unknown"

/-- Result dict of `get_address_details`.  `funder_entity` and `tx_count`
exist only in the scanner1.py variant; the Scanner.py embedding leaves them
at `none` / `0`. -/
structure AddressDetails where
  address : String
  creation_time : Option Nat
  funder : Option String
  funder_entity : Option String
  tx_count : Nat
deriving DecidableEq, Repr

/-- One `layer_info` dict appended to `chain_info` by a trace.  Keys absent
from a given dict in the source (Python dicts are heterogeneous) are held at
their falsy defaults: `0`, `false`, `none`. -/
structure Hop where
  layer : Nat
  address : Option String
  age_days : Int
  age_hours : Int
  is_cex : Bool
  is_verified_old : Bool
  is_distributor : Bool
  entity_name : Option String
  risk_contribution : Int
  funded_by_entity : Option String
deriving DecidableEq, Repr, Inhabited

/-- The dict returned by `trace_funding_source`. -/
structure TraceResult where
  score : Int
  chain : List Hop
  stop_reason : String
deriving DecidableEq, Repr

/-- Outcome of one iteration of the trace loop: `fail` is the
`if not details: break` path, `stop` is any `break` that set a stop reason,
`cont` advances to the funder. -/
inductive StepRes where
  | fail : StepRes
  | stop (hops : List Hop) (score : Int) (reason : String) : StepRes
  | cont (hops : List Hop) (score : Int) (next : String) : StepRes
deriving DecidableEq, Repr

/-- Hop records appended by one loop iteration. -/
def StepRes.hops : StepRes → List Hop
  | .fail => []
  | .stop hs _ _ => hs
  | .cont hs _ _ => hs

/-- The `for depth in range(max_depth + 1)` loop of `trace_funding_source`,
shared by both variants and parameterized by the per-iteration body.
`trace_stop_reason` is initialized to "Max depth reached" and only ever
overwritten by a `break` that sets it, so both normal loop exhaustion and
the `if not details: break` path return the initial string. -/
def runTrace (stepf : Nat → Option String → Int → StepRes) :
    Nat → Nat → Option String → Int → List Hop → TraceResult
  | 0, _, _, score, chain => ⟨score, chain, "Max depth reached"⟩
  | fuel + 1, depth, cur, score, chain =>
    match stepf depth cur score with
    | .fail => ⟨score, chain, "Max depth reached"⟩
    | .stop hs sc r => ⟨sc, chain ++ hs, r⟩
    | .cont hs sc nx => runTrace stepf fuel (depth + 1) (some nx) sc (chain ++ hs)

/-- Distinct receivers among an address's outgoing transfers (the Python
`set` built in `analyze_dispersion_pattern`, counted by cardinality). -/
def dispersionReceivers (p : Provider) (a : String) : List String :=
  ((p.transfersFrom a).filterMap (fun t => truthyStr t.toAddr)).dedup

/-- `analyze_dispersion_pattern`, textually identical in Scanner.py
(lines 169-192) and scanner1.py (lines 182-198).  The float comparison
`len(receivers) / len(tx_list) > 0.5` is encoded exactly as
`2 * receivers > total` (equivalent in exact arithmetic for any positive
total; the source's doubles are exact at this scale since the query is
capped at 100 records).  `if not tx_list or len(tx_list) < 20` collapses to
the single length test because an empty list has length 0 < 20. -/
def analyze_dispersion_pattern (p : Provider) (address : Option String) : Bool :=
  match truthyStr address with
  | none => false
  | some a =>
    let tx_list := p.transfersFrom a
    if tx_list.length < 20 then false
    else if 2 * (dispersionReceivers p a).length > tx_list.length
            ∧ (dispersionReceivers p a).length > 20 then true
    else false

/-- The clamp `max(0, min(100, final_score))` applied by both
`assess_token_risk` aggregators. -/
def final_score_clamp (t : Int) : Int := max 0 (min 100 t)

/-- Return value of `assess_token_risk`: the database short-circuit dict,
the token-level error dict (which has an "error" key and no
"risk_assessment" key), or a full assessment.  Human-readable flag/trace-log
rendering is omitted: no claim concerns it and it feeds no scoring. -/
inductive AssessResult where
  | dbResult (score : Int) (label : String) (flags : List String) : AssessResult
  | tokenError (msg : String) : AssessResult
  | assessment (score : Int) (label : String) (deployer : Option String)
      (stop_reason : String) : AssessResult
deriving DecidableEq, Repr

namespace Scanner1

/-- scanner1.py line 50. -/
def bad_keywords : List String := ["scam", "phishing", "rug", "exploit", "hack", "heist"]

/-- scanner1.py line 11. -/
def cex_keywords : List String :=
  ["binance", "coinbase", "kraken", "okx", "bybit", "kucoin", "gate.io", "htx",
   "bitget", "upbit", "crypto.com", "circle", "tether"]

/-- Database short-circuit dict returned by `check_database_status`. -/
structure DbStatus where
  status : String
  risk_score : Int
  label : String
  flags : List String
  detailsEntity : String
  detailsReason : String
deriving DecidableEq, Repr

/-- scanner1.py `check_database_status` (lines 33-79).  The third branch
(`if entity:`) returns risk score 10 with the source comment "Very low risk
for established entities, but not 0". -/
def check_database_status (p : Provider) (token_address : String) : Option DbStatus :=
  match p.intelligence token_address with
  | none => none
  | some data =>
    if data.entity = none ∧ data.label = none then none
    else
      let entity_name := nameOrUnknown data.entity
      let label_name := nameOrUnknown data.label
      let full_name := lowerStr (entity_name ++ " " ++ label_name)
      if bad_keywords.any (fun bad => strContains full_name bad) then
        some ⟨"KNOWN", 100, "HIGH",
          ["Arkham Database Flagged: "
            ++ (if entity_name = "" then label_name else entity_name)],
          entity_name, "Database Blacklist"⟩
      else if cex_keywords.any (fun good => strContains full_name good) then
        some ⟨"KNOWN", 0, "LOW", ["Trusted Entity Verified: " ++ entity_name],
          entity_name, "Trusted Issuer"⟩
      else if data.entity.isSome then
        some ⟨"KNOWN", 10, "LOW", ["Established Project: " ++ entity_name],
          entity_name, "Known Entity"⟩
      else none

/-- Sort key for history records: `x.get('time', '9999-12-31')`; the default
string is modelled by the epoch value of 9999-12-31. -/
def farFutureKey : Nat := 253402214400

/-- scanner1.py `get_true_age_via_history` (lines 81-108): deep-history
lookup, first record by time, returning its timestamp when present. -/
def get_true_age_via_history (p : Provider) (address : String) : Option Nat :=
  match p.history address with
  | none => none
  | some history_list =>
    if history_list.length > 0 then
      match sortByKey (fun t => t.getD farFutureKey) history_list with
      | [] => none
      | first_ts :: _ => first_ts
    else none

/-- scanner1.py `get_address_details` (lines 110-180).  The `to`-filtered
query falls back to the `base` query when empty; the earliest valid
transfer yields creation time, funder and the funder's attached
entity/label name; a self-funding artifact is discarded. -/
def get_address_details (p : Provider) (address : Option String) : Option AddressDetails :=
  match truthyStr address with
  | none => none
  | some addr =>
    let tx0 := p.transfersTo addr
    let tx_list := if tx0 = [] then p.transfersBase addr else tx0
    if tx_list = [] then some ⟨addr, none, none, none, 0⟩
    else
      let valid_txs := tx_list.filter (fun t => t.blockTimestamp.isSome)
      if valid_txs = [] then some ⟨addr, none, none, none, 0⟩
      else
        match sortByKey txKey valid_txs with
        | [] => some ⟨addr, none, none, none, 0⟩
        | first_tx :: _ =>
          let creation_time := first_tx.blockTimestamp
          let entity_str :=
            match truthyStr first_tx.fromEntityName with
            | some s => some s
            | none => truthyStr first_tx.fromLabelName
          let from_addr := truthyStr first_tx.fromAddr
          let to_addr := truthyStr first_tx.toAddr
          let funder0 : Option String × Option String :=
            if to_addr = some addr ∧ from_addr.isSome then (from_addr, entity_str)
            else (none, none)
          let funder1 : Option String × Option String :=
            if funder0.1 = some addr then (none, none) else funder0
          some ⟨addr, creation_time, funder1.1, funder1.2, tx_list.length⟩

/-- scanner1.py lines 221-228: primary `(age_days, age_hours)` from the
earliest transfer.  `timedelta.days` is floor division of the second delta
by 86400 and `timedelta.seconds // 3600` is the floor-normalized within-day
remainder divided by 3600; `-1` flags an unknown creation time. -/
def primary_age (p : Provider) (details : AddressDetails) : Int × Int :=
  match details.creation_time with
  | none => (-1, 0)
  | some t =>
    let delta : Int := (p.now : Int) - (t : Int)
    (Int.fdiv delta 86400, Int.fdiv (Int.fmod delta 86400) 3600)

/-- scanner1.py lines 221-246: primary age (see `primary_age`), then the V7
truncation-escalation: when the primary age is below one day and the capped
query returned at least 100 records, consult the deep history; any returned
timestamp replaces `age_days`, and the wallet is verified-old exactly when
that true age exceeds 180 days.
Returns `(age_days, age_hours, is_verified_old_wallet)`. -/
def resolve_age (p : Provider) (details : AddressDetails) : Int × Int × Bool :=
  let age_days := (primary_age p details).1
  let age_hours := (primary_age p details).2
  if age_days < 1 ∧ details.tx_count ≥ 100 then
    match get_true_age_via_history p details.address with
    | some true_creation_time =>
      let true_age_days := Int.fdiv ((p.now : Int) - (true_creation_time : Int)) 86400
      (true_age_days, age_hours, decide (true_age_days > 180))
    | none => (age_days, age_hours, false)
  else (age_days, age_hours, false)

/-- scanner1.py age scoring tiers (lines 261-276). -/
def age_risk_rule (depth : Nat) (age_days : Int) (is_verified_old : Bool) : Int :=
  if age_days ≠ -1 then
    if is_verified_old then -10
    else if depth = 0 then
      if age_days < 7 then 20 else if age_days < 14 then 15
      else if age_days < 30 then 10 else 0
    else
      if age_days < 30 then 15 else if age_days < 60 then 10 else 0
  else 0

/-- One iteration of scanner1.py's `trace_funding_source` loop (lines
212-314).  When the funder carries an entity name the layer dict already
appended gains a `funded_by_entity` key (Python dict aliasing), the score
drops by 40, a synthetic known-entity layer at `depth + 1` with its own
-20 contribution is appended, and the loop breaks. -/
def step (p : Provider) (depth : Nat) (cur : Option String) (score : Int) : StepRes :=
  match get_address_details p cur with
  | none => StepRes.fail
  | some details =>
    let ra := resolve_age p details
    let age_days := ra.1
    let age_hours := ra.2.1
    let is_verified_old_wallet := ra.2.2
    let age_risk := age_risk_rule depth age_days is_verified_old_wallet
    let is_distributor :=
      decide (0 < depth) && !is_verified_old_wallet
        && analyze_dispersion_pattern p (some details.address)
    let contrib := age_risk + (if is_distributor then 30 else 0)
    let score1 := score + contrib
    let layer_info : Hop :=
      ⟨depth, some details.address, age_days, age_hours, false,
        is_verified_old_wallet, is_distributor, none, contrib, none⟩
    match details.funder_entity with
    | some funder_entity =>
      StepRes.stop
        [{ layer_info with funded_by_entity := some funder_entity },
         ⟨depth + 1, details.funder, -1, 0, true, false, false,
           some funder_entity, -20, none⟩]
        (score1 - 40 - 20)
        ("Funded by Known Entity: " ++ funder_entity)
    | none =>
      match details.funder with
      | none => StepRes.stop [layer_info] score1 "No upstream funder found"
      | some funder => StepRes.cont [layer_info] score1 funder

/-- scanner1.py `trace_funding_source` (lines 200-316): running total
initialized to 0, loop over depths `0..max_depth`. -/
def trace_funding_source (p : Provider) (start_address : Option String)
    (max_depth : Nat) : TraceResult :=
  runTrace (step p) (max_depth + 1) 0 start_address 0 []

/-- scanner1.py `assess_token_risk` (lines 318-420): database short-circuit,
then the token's first transfer yields the deployer, the trace runs with
`max_depth = 3`, and the total is clamped into [0,100] and labelled with
the 40/70 boundaries.  The inner `match` on the sorted list is unreachable
in its `[]` arm because sorting preserves nonemptiness. -/
def assess_token_risk (p : Provider) (token_address : String) : AssessResult :=
  match check_database_status p token_address with
  | some db => AssessResult.dbResult db.risk_score db.label db.flags
  | none =>
    let tx_list := p.transfersBase token_address
    if tx_list = [] then AssessResult.tokenError "No token history found"
    else
      let valid_txs := tx_list.filter (fun t => t.blockTimestamp.isSome)
      if valid_txs = [] then AssessResult.tokenError "No valid timestamp data"
      else
        match sortByKey txKey valid_txs with
        | [] => AssessResult.tokenError "No valid timestamp data"
        | first_tx :: _ =>
          let deployer :=
            match truthyStr first_tx.fromAddr with
            | some a => some a
            | none => truthyStr first_tx.toAddr
          let funding_analysis := trace_funding_source p deployer 3
          let final_score := final_score_clamp funding_analysis.score
          let label :=
            if final_score ≥ 70 then "HIGH"
            else if final_score ≥ 40 then "MEDIUM" else "LOW"
          AssessResult.assessment final_score label deployer funding_analysis.stop_reason

end Scanner1

namespace Scanner0

/-- Scanner.py line 51. -/
def bad_keywords : List String :=
  ["scam", "phish", "phishing", "rug", "rugpull", "exploit", "hack", "heist"]

/-- Scanner.py line 10. -/
def cex_keywords : List String :=
  ["binance", "coinbase", "kraken", "okx", "bybit", "kucoin", "gate.io", "htx",
   "bitget", "upbit", "crypto.com"]

/-- Scanner.py `check_database_status` (lines 32-81).  Same decision ladder
as scanner1.py, but the third branch (`if entity:`) returns risk score 0,
identical to the trusted-issuer score. -/
def check_database_status (p : Provider) (token_address : String) :
    Option Scanner1.DbStatus :=
  match p.intelligence token_address with
  | none => none
  | some data =>
    if data.entity = none ∧ data.label = none then none
    else
      let entity_name := nameOrUnknown data.entity
      let label_name := nameOrUnknown data.label
      let full_name := lowerStr (entity_name ++ " " ++ label_name)
      if bad_keywords.any (fun bad => strContains full_name bad) then
        some ⟨"KNOWN", 100, "HIGH",
          ["Arkham Database Flagged: "
            ++ (if entity_name = "" then label_name else entity_name)],
          entity_name, "Database Blacklist"⟩
      else if cex_keywords.any (fun good => strContains full_name good) then
        some ⟨"KNOWN", 0, "LOW", ["Trusted Entity Verified: " ++ entity_name],
          entity_name, "Trusted Issuer"⟩
      else if data.entity.isSome then
        some ⟨"KNOWN", 0, "LOW", ["Established Project: " ++ entity_name],
          entity_name, "Known Entity"⟩
      else none

/-- Scanner.py `get_address_details` (lines 83-153).  Same funder-extraction
logic as scanner1.py but without entity propagation; the `funder_entity` and
`tx_count` fields of the shared record are unused by this variant and held
at `none` / `0`. -/
def get_address_details (p : Provider) (address : Option String) : Option AddressDetails :=
  match truthyStr address with
  | none => none
  | some addr =>
    let tx0 := p.transfersTo addr
    let tx_list := if tx0 = [] then p.transfersBase addr else tx0
    if tx_list = [] then some ⟨addr, none, none, none, 0⟩
    else
      let valid_txs := tx_list.filter (fun t => t.blockTimestamp.isSome)
      if valid_txs = [] then some ⟨addr, none, none, none, 0⟩
      else
        match sortByKey txKey valid_txs with
        | [] => some ⟨addr, none, none, none, 0⟩
        | first_tx :: _ =>
          let creation_time := first_tx.blockTimestamp
          let from_addr := truthyStr first_tx.fromAddr
          let to_addr := truthyStr first_tx.toAddr
          let funder0 : Option String :=
            if to_addr = some addr ∧ from_addr.isSome then from_addr else none
          let funder1 : Option String :=
            if funder0 = some addr then none else funder0
          some ⟨addr, creation_time, funder1, none, 0⟩

/-- Scanner.py `check_is_known_entity` (lines 155-167): the intelligence
entity name, lowercased, is matched against the CEX keywords; on a match the
raw name is returned (`entity.get('name')`, which a match forces to be the
present, non-empty name). -/
def check_is_known_entity (p : Provider) (address : String) : Option String :=
  match p.intelligence address with
  | none => none
  | some data =>
    match data.entity with
    | none => none
    | some nm =>
      let name := lowerStr (nm.getD "")
      if cex_keywords.any (fun k => strContains name k) then some (nm.getD "")
      else none

/-- Scanner.py age scoring tiers (lines 236-244). -/
def age_risk_rule (depth : Nat) (age_days : Int) : Int :=
  if age_days ≠ -1 then
    if depth = 0 then
      if age_days < 30 then 30 else if age_days < 90 then 20
      else if age_days < 180 then 10 else 0
    else
      if age_days < 90 then 20 else if age_days < 180 then 10 else 0
  else 0

/-- One iteration of Scanner.py's `trace_funding_source` loop (lines
202-263).  At depth > 0 a known-entity match on the current address turns
the current layer dict into the terminal hop (risk contribution set to -10,
no age scoring) and breaks; otherwise age risk and the dispersion penalty
(+50) accrue before the funder check. -/
def step (p : Provider) (depth : Nat) (cur : Option String) (score : Int) : StepRes :=
  match get_address_details p cur with
  | none => StepRes.fail
  | some details =>
    let age_days : Int :=
      match details.creation_time with
      | none => -1
      | some t => Int.fdiv ((p.now : Int) - (t : Int)) 86400
    match (if 0 < depth then check_is_known_entity p details.address else none) with
    | some entity_name =>
      StepRes.stop
        [⟨depth, some details.address, age_days, 0, true, false, false,
          some entity_name, -10, none⟩]
        (score - 10)
        ("Found Trusted Entity: " ++ entity_name)
    | none =>
      let age_risk := age_risk_rule depth age_days
      let is_distributor :=
        decide (0 < depth) && analyze_dispersion_pattern p (some details.address)
      let contrib := age_risk + (if is_distributor then 50 else 0)
      let score1 := score + contrib
      let layer_info : Hop :=
        ⟨depth, some details.address, age_days, 0, false, false, is_distributor,
          none, contrib, none⟩
      match details.funder with
      | none => StepRes.stop [layer_info] score1 "No upstream funder found"
      | some funder => StepRes.cont [layer_info] score1 funder

/-- Scanner.py `trace_funding_source` (lines 194-265): the running total is
initialized to 20 ("It's always with risk as long as the contract is not
deployed by trusted entity"). -/
def trace_funding_source (p : Provider) (start_address : Option String)
    (max_depth : Nat) : TraceResult :=
  runTrace (step p) (max_depth + 1) 0 start_address 20 []

/-- Scanner.py `assess_token_risk` (lines 267-365): same shape as the
scanner1.py aggregator with the 30/70 label boundaries. -/
def assess_token_risk (p : Provider) (token_address : String) : AssessResult :=
  match check_database_status p token_address with
  | some db => AssessResult.dbResult db.risk_score db.label db.flags
  | none =>
    let tx_list := p.transfersBase token_address
    if tx_list = [] then AssessResult.tokenError "No token history found"
    else
      let valid_txs := tx_list.filter (fun t => t.blockTimestamp.isSome)
      if valid_txs = [] then AssessResult.tokenError "No valid timestamp data"
      else
        match sortByKey txKey valid_txs with
        | [] => AssessResult.tokenError "No valid timestamp data"
        | first_tx :: _ =>
          let deployer :=
            match truthyStr first_tx.fromAddr with
            | some a => some a
            | none => truthyStr first_tx.toAddr
          let funding_analysis := trace_funding_source p deployer 3
          let final_score := final_score_clamp funding_analysis.score
          let label :=
            if final_score ≥ 70 then "HIGH"
            else if final_score ≥ 30 then "MEDIUM" else "LOW"
          AssessResult.assessment final_score label deployer funding_analysis.stop_reason

end Scanner0

/-- Score weight of a hop as seen from the running total: its recorded
`risk_contribution` plus the -40 that scanner1.py subtracts from the total
(without recording it in any `risk_contribution`) when the hop gained a
`funded_by_entity` key. -/
def wAdj (h : Hop) : Int :=
  h.risk_contribution + (if h.funded_by_entity.isSome then -40 else 0)

/-- Shape invariant of a loop body: the hops appended by one iteration at
depth `d` carry layers `[d]` or `[d, d+1]`, and the returned score is the
incoming score plus the weights of the appended hops. -/
def StepOk (stepf : Nat → Option String → Int → StepRes) : Prop :=
  ∀ d c s, match stepf d c s with
    | .fail => True
    | .stop hs sc _ =>
        (hs.map Hop.layer = [d] ∨ hs.map Hop.layer = [d, d + 1])
          ∧ sc = s + (hs.map wAdj).sum
    | .cont hs sc _ => hs.map Hop.layer = [d] ∧ sc = s + (hs.map wAdj).sum

/-- Master invariant of the trace loop: for a well-shaped body, the loop
only appends hops, the appended hops carry consecutive layers starting at
the entry depth, the final score is the entry score plus the appended
weights, and at most `fuel + 1` hops are appended. -/
theorem runTrace_spec (stepf : Nat → Option String → Int → StepRes) (hok : StepOk stepf) :
    ∀ (fuel depth : Nat) (cur : Option String) (sc : Int) (chain : List Hop),
    ∃ new : List Hop,
      (runTrace stepf fuel depth cur sc chain).chain = chain ++ new ∧
      new.map Hop.layer = List.range' depth new.length ∧
      (runTrace stepf fuel depth cur sc chain).score = sc + (new.map wAdj).sum ∧
      new.length ≤ fuel + 1 := by
  intro fuel
  induction fuel with
  | zero =>
    intro depth cur sc chain
    exact ⟨[], by simp [runTrace], by simp, by simp [runTrace], by simp⟩
  | succ n ih =>
    intro depth cur sc chain
    have h := hok depth cur sc
    cases hs : stepf depth cur sc with
    | fail =>
      exact ⟨[], by simp [runTrace, hs], by simp, by simp [runTrace, hs], by simp⟩
    | stop hops sc2 r =>
      rw [hs] at h
      refine ⟨hops, by simp [runTrace, hs], ?_, by simp [runTrace, hs, h.2], ?_⟩
      · rcases h.1 with h1 | h1
        · have hl : hops.length = 1 := by simpa using congrArg List.length h1
          rw [h1, hl]
          simp [List.range'_succ]
        · have hl : hops.length = 2 := by simpa using congrArg List.length h1
          rw [h1, hl]
          simp [List.range'_succ]
      · rcases h.1 with h1 | h1 <;>
          (have hl2 := congrArg List.length h1; simp at hl2; omega)
    | cont hops sc2 nx =>
      rw [hs] at h
      obtain ⟨new, hc, hl, hscore, hlen⟩ := ih (depth + 1) (some nx) sc2 (chain ++ hops)
      have hrun : runTrace stepf (n + 1) depth cur sc chain
          = runTrace stepf n (depth + 1) (some nx) sc2 (chain ++ hops) := by
        simp [runTrace, hs]
      have hlen1 : hops.length = 1 := by simpa using congrArg List.length h.1
      refine ⟨hops ++ new, ?_, ?_, ?_, ?_⟩
      · rw [hrun, hc, List.append_assoc]
      · have hlapp : (hops ++ new).length = new.length + 1 := by
          simp [hlen1, Nat.add_comm]
        rw [List.map_append, h.1, hl, hlapp, List.range'_succ]
        rfl
      · rw [hrun, hscore, h.2, List.map_append, List.sum_append]
        ring
      · simp only [List.length_append, hlen1]
        omega

/-- Every hop appended by the loop satisfies any predicate preserved by the
body and by the entry chain. -/
theorem runTrace_hop_pred (stepf : Nat → Option String → Int → StepRes)
    (P : Hop → Prop)
    (hstep : ∀ d c s h, h ∈ (stepf d c s).hops → P h) :
    ∀ (fuel depth : Nat) (cur : Option String) (sc : Int) (chain : List Hop),
    (∀ h ∈ chain, P h) →
    ∀ h ∈ (runTrace stepf fuel depth cur sc chain).chain, P h := by
  intro fuel
  induction fuel with
  | zero => intro depth cur sc chain hch; simpa [runTrace] using hch
  | succ n ih =>
    intro depth cur sc chain hch
    cases hs : stepf depth cur sc with
    | fail => simpa [runTrace, hs] using hch
    | stop hops sc2 r =>
      intro h hm
      simp only [runTrace, hs] at hm
      rcases List.mem_append.1 hm with hm2 | hm2
      · exact hch h hm2
      · exact hstep depth cur sc h (by rw [hs]; exact hm2)
    | cont hops sc2 nx =>
      intro h hm
      simp only [runTrace, hs] at hm
      refine ih (depth + 1) (some nx) sc2 (chain ++ hops) ?_ h hm
      intro h2 hm2
      rcases List.mem_append.1 hm2 with hm3 | hm3
      · exact hch h2 hm3
      · exact hstep depth cur sc h2 (by rw [hs]; exact hm3)

/-- The scanner1.py loop body is well shaped. -/
theorem scanner1_step_ok (p : Provider) : StepOk (Scanner1.step p) := by
  intro d c s
  cases hd : Scanner1.get_address_details p c with
  | none => simp [Scanner1.step, hd]
  | some details =>
    cases hfe : details.funder_entity with
    | some fe =>
      simp only [Scanner1.step, hd, hfe]
      refine ⟨Or.inr (by simp), ?_⟩
      simp only [List.map_cons, List.map_nil, List.sum_cons, List.sum_nil, wAdj]
      simp
      ring
    | none =>
      cases hf : details.funder with
      | none =>
        simp only [Scanner1.step, hd, hfe, hf]
        refine ⟨Or.inl (by simp), ?_⟩
        simp [wAdj]
      | some f =>
        simp only [Scanner1.step, hd, hfe, hf]
        refine ⟨by simp, ?_⟩
        simp [wAdj]

/-- A hop can only be verified-old with a deep-history age above 180 days. -/
theorem Scanner1.resolve_age_old (p : Provider) (dt : AddressDetails)
    (h : (Scanner1.resolve_age p dt).2.2 = true) :
    (Scanner1.resolve_age p dt).1 > 180 := by
  unfold Scanner1.resolve_age at h ⊢
  by_cases hc : (Scanner1.primary_age p dt).1 < 1 ∧ dt.tx_count ≥ 100
  · rw [if_pos hc] at h ⊢
    cases hh : Scanner1.get_true_age_via_history p dt.address with
    | none => rw [hh] at h; simp at h
    | some t2 =>
      rw [hh] at h
      simpa using h
  · rw [if_neg hc] at h
    simp at h

/-- Per-iteration form of the verified-old exemption in scanner1.py: a hop
recorded as verified-old was never given the dispersion penalty, and its
contribution is exactly the -10 verified-old age bonus. -/
theorem Scanner1.step_verified_old (p : Provider) :
    ∀ (d : Nat) (c : Option String) (s : Int) (h : Hop),
      h ∈ ((Scanner1.step p) d c s).hops → h.is_verified_old = true →
      h.is_distributor = false ∧ h.risk_contribution = -10 := by
  intro d c s h hm hv
  cases hd : Scanner1.get_address_details p c with
  | none => simp [Scanner1.step, hd, StepRes.hops] at hm
  | some details =>
    have hbase : ∀ hb : Hop,
        hb.is_verified_old = (Scanner1.resolve_age p details).2.2 →
        hb.is_distributor
          = (decide (0 < d) && !(Scanner1.resolve_age p details).2.2
              && analyze_dispersion_pattern p (some details.address)) →
        hb.risk_contribution
          = Scanner1.age_risk_rule d (Scanner1.resolve_age p details).1
              (Scanner1.resolve_age p details).2.2
            + (if (decide (0 < d) && !(Scanner1.resolve_age p details).2.2
                && analyze_dispersion_pattern p (some details.address)) = true
               then 30 else 0) →
        hb.is_verified_old = true →
        hb.is_distributor = false ∧ hb.risk_contribution = -10 := by
      intro hb h1 h2 h3 h4
      have hver : (Scanner1.resolve_age p details).2.2 = true := h1 ▸ h4
      have hgt := Scanner1.resolve_age_old p details hver
      constructor
      · rw [h2, hver]
        simp
      · rw [h3, hver]
        have hne : (Scanner1.resolve_age p details).1 ≠ -1 := by omega
        simp [Scanner1.age_risk_rule, hne]
    cases hfe : details.funder_entity with
    | some fe =>
      simp only [Scanner1.step, hd, hfe, StepRes.hops, List.mem_cons,
        List.mem_singleton] at hm
      rcases hm with hm | hm | hm
      · subst hm; exact hbase _ rfl rfl rfl hv
      · subst hm; simp at hv
      · simp at hm
    | none =>
      cases hf : details.funder with
      | none =>
        simp only [Scanner1.step, hd, hfe, hf, StepRes.hops,
          List.mem_singleton] at hm
        subst hm; exact hbase _ rfl rfl rfl hv
      | some f =>
        simp only [Scanner1.step, hd, hfe, hf, StepRes.hops,
          List.mem_singleton] at hm
        subst hm; exact hbase _ rfl rfl rfl hv

/-- Scanner.py hops never carry the scanner1.py-only `funded_by_entity`
key. -/
theorem Scanner0.hop_no_funded (p : Provider) :
    ∀ (d : Nat) (c : Option String) (s : Int) (h : Hop),
      h ∈ ((Scanner0.step p) d c s).hops → h.funded_by_entity = none := by
  intro d c s h hm
  cases hd : Scanner0.get_address_details p c with
  | none => simp [Scanner0.step, hd, StepRes.hops] at hm
  | some details =>
    cases hk : (if 0 < d then Scanner0.check_is_known_entity p details.address
        else none) with
    | some e =>
      simp only [Scanner0.step, hd, hk, StepRes.hops, List.mem_singleton] at hm
      subst hm; rfl
    | none =>
      cases hf : details.funder with
      | none =>
        simp only [Scanner0.step, hd, hk, hf, StepRes.hops,
          List.mem_singleton] at hm
        subst hm; rfl
      | some f =>
        simp only [Scanner0.step, hd, hk, hf, StepRes.hops,
          List.mem_singleton] at hm
        subst hm; rfl

/-- The Scanner.py loop body is well shaped. -/
theorem scanner0_step_ok (p : Provider) : StepOk (Scanner0.step p) := by
  intro d c s
  cases hd : Scanner0.get_address_details p c with
  | none => simp [Scanner0.step, hd]
  | some details =>
    cases hk : (if 0 < d then Scanner0.check_is_known_entity p details.address else none) with
    | some ename =>
      simp only [Scanner0.step, hd, hk]
      refine ⟨Or.inl (by simp), ?_⟩
      simp [wAdj]
      ring
    | none =>
      cases hf : details.funder with
      | none =>
        simp only [Scanner0.step, hd, hk, hf]
        refine ⟨Or.inl (by simp), ?_⟩
        simp [wAdj]
      | some f =>
        simp only [Scanner0.step, hd, hk, hf]
        refine ⟨by simp, ?_⟩
        simp [wAdj]

/-- Test fixture: a provider with no data at all. -/
def pEmpty : Provider :=
  { transfersTo := fun _ => [], transfersBase := fun _ => [],
    transfersFrom := fun _ => [], history := fun _ => none,
    intelligence := fun _ => none, now := 0 }

/-- Fixture helper: an outgoing transfer to `r` as seen by the dispersion
detector. -/
def mkOut (r : String) : Transfer := ⟨none, some r, none, none, none⟩

/-- Test fixture for the aggregator: token "T" has a single transfer from
deployer "D", and "D" itself has no history. -/
def pAssessW : Provider :=
  { pEmpty with
    transfersBase := fun a =>
      if a = "T" then [⟨some "D", some "T", some 5, none, none⟩] else [] }

/-- Test fixture for the known-entity short-circuit: deployer "D" was funded
by "F", whose side of the earliest transfer carries the entity name
"Binance". -/
def pC3 : Provider :=
  { pEmpty with
    transfersTo := fun a =>
      if a = "D" then [⟨some "F", some "D", some 1000, some "Binance", none⟩]
      else [],
    now := 1000 }

/-- Test fixture for truncation escalation: the deep history of "F" starts
200 days before `now`. -/
def pC4 : Provider :=
  { pEmpty with
    history := fun a => if a = "F" then some [some (86400 * 100)] else none,
    now := 86400 * 300 }

/-- Address details of a capped, seemingly brand-new wallet: earliest
observed timestamp equals `now` and the capped query returned exactly 100
records. -/
def c4details : AddressDetails := ⟨"F", some (86400 * 300), none, none, 100⟩

/-- Test fixture for the verified-old exemption: wallet "F" funds deployer
"D"; the capped primary lookup for "F" returns 100 same-day records, its
deep history starts 200 days earlier, and its outgoing transfers would
satisfy the raw distributor criteria (25 transfers, 21 distinct
receivers). -/
def pC5 : Provider :=
  { pEmpty with
    transfersTo := fun a =>
      if a = "D" then [⟨some "F", some "D", some (86400 * 300), none, none⟩]
      else if a = "F" then
        List.replicate 100 ⟨none, some "F", some (86400 * 300), none, none⟩
      else [],
    transfersFrom := fun a =>
      if a = "F" then
        (["r01", "r02", "r03", "r04", "r05", "r06", "r07", "r08", "r09", "r10",
          "r11", "r12", "r13", "r14", "r15", "r16", "r17", "r18", "r19", "r20",
          "r21"].map mkOut) ++ List.replicate 4 (mkOut "r01")
      else [],
    history := fun a => if a = "F" then some [some (86400 * 100)] else none,
    now := 86400 * 300 }

/-- The verified-old hop produced at depth 1 of the `pC5` trace. -/
def c5hop : Hop := ⟨1, some "F", 200, 0, false, true, false, none, -10, none⟩

/-- Test fixture for the entity classifier: token "T" has a named entity
with no keyword match; address "U" carries only a label, no entity. -/
def pC7 : Provider :=
  { pEmpty with
    intelligence := fun a =>
      if a = "T" then some ⟨some (some "Raydium"), none⟩
      else if a = "U" then some ⟨none, some (some "Wintermute")⟩
      else none }

/-- Dispersion fixture: 25 outgoing transfers of "A" to 21 distinct
receivers. -/
def pDisp21 : Provider :=
  { pEmpty with
    transfersFrom := fun a =>
      if a = "A" then
        (["r01", "r02", "r03", "r04", "r05", "r06", "r07", "r08", "r09", "r10",
          "r11", "r12", "r13", "r14", "r15", "r16", "r17", "r18", "r19", "r20",
          "r21"].map mkOut) ++ List.replicate 4 (mkOut "r01")
      else [] }

/-- Dispersion fixture: 25 outgoing transfers of "A" to 10 distinct
receivers. -/
def pDisp10 : Provider :=
  { pEmpty with
    transfersFrom := fun a =>
      if a = "A" then
        (["r01", "r02", "r03", "r04", "r05", "r06", "r07", "r08", "r09",
          "r10"].map mkOut) ++ List.replicate 15 (mkOut "r01")
      else [] }

/-- Dispersion fixture: 15 outgoing transfers of "A" to 15 distinct
receivers (below the minimum sample size). -/
def pDisp15 : Provider :=
  { pEmpty with
    transfersFrom := fun a =>
      if a = "A" then
        ["r01", "r02", "r03", "r04", "r05", "r06", "r07", "r08", "r09", "r10",
         "r11", "r12", "r13", "r14", "r15"].map mkOut
      else [] }

/-- C2: for every trace produced by `trace_funding_source` with
`max_depth = 3` (either variant), the `layer` fields of the appended hop
records are exactly 0,1,2,... in order with no gaps (the synthetic
known-entity hop of scanner1.py, when present, continues at the previous
depth plus one), and the number of hop records is at most `maxDepth + 2`. -/
theorem C2_trace_depths_consecutive :
    ∀ (p : Provider) (start : Option String),
      ((Scanner1.trace_funding_source p start 3).chain.map Hop.layer
          = List.range (Scanner1.trace_funding_source p start 3).chain.length
        ∧ (Scanner1.trace_funding_source p start 3).chain.length ≤ 3 + 2)
      ∧ ((Scanner0.trace_funding_source p start 3).chain.map Hop.layer
          = List.range (Scanner0.trace_funding_source p start 3).chain.length
        ∧ (Scanner0.trace_funding_source p start 3).chain.length ≤ 3 + 2) := by
  intro p start
  constructor
  · obtain ⟨new, hc, hl, _, hlen⟩ :=
      runTrace_spec (Scanner1.step p) (scanner1_step_ok p) 4 0 start 0 []
    have hc2 : (Scanner1.trace_funding_source p start 3).chain = new := by
      simpa [Scanner1.trace_funding_source] using hc
    refine ⟨?_, ?_⟩
    · rw [hc2, hl]
      exact (List.range_eq_range' new.length).symm
    · rw [hc2]; omega
  · obtain ⟨new, hc, hl, _, hlen⟩ :=
      runTrace_spec (Scanner0.step p) (scanner0_step_ok p) 4 0 start 20 []
    have hc2 : (Scanner0.trace_funding_source p start 3).chain = new := by
      simpa [Scanner0.trace_funding_source] using hc
    refine ⟨?_, ?_⟩
    · rw [hc2, hl]
      exact (List.range_eq_range' new.length).symm
    · rw [hc2]; omega

/-- C10: Scanner.py initializes the running trace total to 20 before any
hop is scored while scanner1.py initializes it to 0, so a trace that
accrues no age risk, no dispersion penalty and no known-entity reduction
(all hop contributions zero, no `funded_by_entity` key) scores exactly 20
resp. 0. -/
theorem C10_initial_score :
    ∀ (p : Provider) (start : Option String),
      ((∀ h ∈ (Scanner0.trace_funding_source p start 3).chain,
          h.risk_contribution = 0) →
        (Scanner0.trace_funding_source p start 3).score = 20)
      ∧ ((∀ h ∈ (Scanner1.trace_funding_source p start 3).chain,
          h.risk_contribution = 0 ∧ h.funded_by_entity = none) →
        (Scanner1.trace_funding_source p start 3).score = 0) := by
  intro p start
  constructor
  · intro hz
    obtain ⟨new, hc, _, hscore, _⟩ :=
      runTrace_spec (Scanner0.step p) (scanner0_step_ok p) 4 0 start 20 []
    have hc2 : (Scanner0.trace_funding_source p start 3).chain = new := by
      simpa [Scanner0.trace_funding_source] using hc
    have hall := runTrace_hop_pred (Scanner0.step p)
      (fun hh => hh.funded_by_entity = none)
      (Scanner0.hop_no_funded p) 4 0 start 20 [] (by simp)
    have hscore2 : (Scanner0.trace_funding_source p start 3).score
        = 20 + (new.map wAdj).sum := by
      simpa [Scanner0.trace_funding_source] using hscore
    rw [hscore2]
    have hzero : (new.map wAdj).sum = 0 := by
      apply List.sum_eq_zero
      intro x hx
      obtain ⟨h, hm, hxe⟩ := List.mem_map.1 hx
      have h1 : h.risk_contribution = 0 := hz h (by rw [hc2]; exact hm)
      have h2 : h.funded_by_entity = none := by
        refine hall h ?_
        rw [hc]; simpa using hm
      rw [← hxe]
      simp [wAdj, h1, h2]
    rw [hzero]
    ring
  · intro hz
    obtain ⟨new, hc, _, hscore, _⟩ :=
      runTrace_spec (Scanner1.step p) (scanner1_step_ok p) 4 0 start 0 []
    have hc2 : (Scanner1.trace_funding_source p start 3).chain = new := by
      simpa [Scanner1.trace_funding_source] using hc
    have hscore2 : (Scanner1.trace_funding_source p start 3).score
        = 0 + (new.map wAdj).sum := by
      simpa [Scanner1.trace_funding_source] using hscore
    rw [hscore2]
    have hzero : (new.map wAdj).sum = 0 := by
      apply List.sum_eq_zero
      intro x hx
      obtain ⟨h, hm, hxe⟩ := List.mem_map.1 hx
      obtain ⟨h1, h2⟩ := hz h (by rw [hc2]; exact hm)
      rw [← hxe]
      simp [wAdj, h1, h2]
    rw [hzero]
    ring

/-- C10 witness: on a provider with no data, the single evidence-free hop
contributes nothing and the two variants return their initial totals. -/
theorem C10_initial_score_witness :
    (Scanner0.trace_funding_source pEmpty (some "D") 3).score = 20
    ∧ (Scanner1.trace_funding_source pEmpty (some "D") 3).score = 0 :=
  ⟨(C10_initial_score pEmpty (some "D")).1 (by decide),
   (C10_initial_score pEmpty (some "D")).2 (by decide)⟩

/-- C9 (amended): when resolving the current address's details fails, the
trace loop of either variant terminates immediately without appending a
hop, but the stop reason keeps its initialized value "Max depth reached";
no stop reason distinct from the max-depth one is produced for lookup
failure. -/
theorem C9_lookup_failure_default_reason :
    (∀ (p : Provider) (fuel depth : Nat) (cur : Option String) (sc : Int)
        (chain : List Hop),
      Scanner1.get_address_details p cur = none →
      runTrace (Scanner1.step p) (fuel + 1) depth cur sc chain
        = ⟨sc, chain, "Max depth reached"⟩)
    ∧ (∀ (p : Provider) (fuel depth : Nat) (cur : Option String) (sc : Int)
        (chain : List Hop),
      Scanner0.get_address_details p cur = none →
      runTrace (Scanner0.step p) (fuel + 1) depth cur sc chain
        = ⟨sc, chain, "Max depth reached"⟩) := by
  constructor
  · intro p fuel depth cur sc chain hd
    have hstep : Scanner1.step p depth cur sc = StepRes.fail := by
      simp [Scanner1.step, hd]
    simp [runTrace, hstep]
  · intro p fuel depth cur sc chain hd
    have hstep : Scanner0.step p depth cur sc = StepRes.fail := by
      simp [Scanner0.step, hd]
    simp [runTrace, hstep]

/-- C9 witness: a trace started on an unresolvable (absent) address
terminates at depth 0 with the default reason. -/
theorem C9_lookup_failure_default_reason_witness :
    runTrace (Scanner1.step pEmpty) (3 + 1) 0 none 0 []
      = ⟨0, [], "Max depth reached"⟩
    ∧ runTrace (Scanner0.step pEmpty) (3 + 1) 0 none 20 []
      = ⟨20, [], "Max depth reached"⟩ :=
  ⟨C9_lookup_failure_default_reason.1 pEmpty 3 0 none 0 [] rfl,
   C9_lookup_failure_default_reason.2 pEmpty 3 0 none 20 [] rfl⟩

/-- C9 counterexample: the claimed distinct `StoppedByLookupFailure` stop
reason does not exist; a trace whose very first resolution fails reports
the literal max-depth reason with an empty chain in both variants. -/
theorem C9_counterexample :
    Scanner1.trace_funding_source pEmpty none 3 = ⟨0, [], "Max depth reached"⟩
    ∧ Scanner0.trace_funding_source pEmpty none 3
      = ⟨20, [], "Max depth reached"⟩ := by decide

/-- C3 (amended): at any trace iteration of scanner1.py whose resolved
funder carries an attached entity name, the engine subtracts a fixed 40
from the running total, appends exactly one synthetic known-entity hop at
depth+1 carrying its own smaller fixed reduction of 20, sets the
known-entity stop reason, and terminates, so no hop beyond depth+1 is ever
produced. -/
theorem C3_known_entity_short_circuit :
    ∀ (p : Provider) (fuel depth : Nat) (cur : Option String) (score : Int)
      (chain : List Hop) (details : AddressDetails) (fe : String),
      Scanner1.get_address_details p cur = some details →
      details.funder_entity = some fe →
      ∃ h1 : Hop, h1.layer = depth ∧ h1.funded_by_entity = some fe ∧
        runTrace (Scanner1.step p) (fuel + 1) depth cur score chain
          = ⟨score + h1.risk_contribution - 40 - 20,
             chain ++ [h1, ⟨depth + 1, details.funder, -1, 0, true, false, false,
               some fe, -20, none⟩],
             "Funded by Known Entity: " ++ fe⟩ := by
  intro p fuel depth cur score chain details fe hd hfe
  refine ⟨⟨depth, some details.address, (Scanner1.resolve_age p details).1,
      (Scanner1.resolve_age p details).2.1, false,
      (Scanner1.resolve_age p details).2.2,
      decide (0 < depth) && !(Scanner1.resolve_age p details).2.2
        && analyze_dispersion_pattern p (some details.address),
      none,
      Scanner1.age_risk_rule depth (Scanner1.resolve_age p details).1
          (Scanner1.resolve_age p details).2.2
        + (if (decide (0 < depth) && !(Scanner1.resolve_age p details).2.2
              && analyze_dispersion_pattern p (some details.address)) = true
           then 30 else 0),
      some fe⟩, rfl, rfl, ?_⟩
  simp only [runTrace, Scanner1.step, hd, hfe]

/-- C3 witness: the amended short-circuit at a concrete provider where the
deployer's funder carries the entity name "Binance". -/
theorem C3_known_entity_short_circuit_witness :
    ∃ h1 : Hop, h1.layer = 0 ∧ h1.funded_by_entity = some "Binance" ∧
      runTrace (Scanner1.step pC3) (3 + 1) 0 (some "D") 0 []
        = ⟨0 + h1.risk_contribution - 40 - 20,
           [] ++ [h1, ⟨0 + 1, some "F", -1, 0, true, false, false, some "Binance",
             -20, none⟩],
           "Funded by Known Entity: " ++ "Binance"⟩ :=
  C3_known_entity_short_circuit pC3 3 0 (some "D") 0 []
    ⟨"D", some 1000, some "F", some "Binance", 1⟩ "Binance" (by decide) rfl

/-- C3 counterexample: in the concrete `pC3` trace the reduction applied
directly to the running total is 40 while the synthetic known-entity hop's
own recorded reduction is only 20 (contribution -20, final score
20 - 40 - 20), refuting the claim that the synthetic hop carries the
larger fixed reduction. -/
theorem C3_counterexample :
    (Scanner1.trace_funding_source pC3 (some "D") 3).chain.map
        (fun h => (h.layer, h.is_cex, h.risk_contribution, h.funded_by_entity))
      = [(0, false, 20, some "Binance"), (1, true, -20, none)]
    ∧ (Scanner1.trace_funding_source pC3 (some "D") 3).score = 20 - 40 - 20
    ∧ (Scanner1.trace_funding_source pC3 (some "D") 3).stop_reason
        = "Funded by Known Entity: Binance"
    ∧ ¬ ((40 : Int) < 20) := by decide

/-- C4: when the primary lookup returned exactly the 100-record cap and the
earliest observed timestamp gives an age below one day, the scanner1.py
resolver escalates to the deep-history lookup; an older returned timestamp
replaces `age_days` with the deep-history age, and the wallet is verified
old exactly when that age exceeds 180 days. -/
theorem C4_truncation_escalation :
    ∀ (p : Provider) (details : AddressDetails) (t t2 : Nat),
      details.creation_time = some t →
      Int.fdiv ((p.now : Int) - (t : Int)) 86400 < 1 →
      details.tx_count = 100 →
      Scanner1.get_true_age_via_history p details.address = some t2 →
      t2 ≤ t →
      (Scanner1.resolve_age p details).1
          = Int.fdiv ((p.now : Int) - (t2 : Int)) 86400
      ∧ ((Scanner1.resolve_age p details).2.2 = true
          ↔ Int.fdiv ((p.now : Int) - (t2 : Int)) 86400 > 180) := by
  intro p details t t2 hct hage htc hh _
  have hp : (Scanner1.primary_age p details).1
      = Int.fdiv ((p.now : Int) - (t : Int)) 86400 := by
    simp [Scanner1.primary_age, hct]
  unfold Scanner1.resolve_age
  rw [if_pos ⟨by rw [hp]; exact hage, by omega⟩, hh]
  simp

/-- C4 witness: with the primary earliest timestamp equal to `now`, a
100-record cap, and a deep history starting 200 days earlier, the resolved
age is 200 days and the wallet is verified old. -/
theorem C4_truncation_escalation_witness :
    (Scanner1.resolve_age pC4 c4details).1 = 200
    ∧ (Scanner1.resolve_age pC4 c4details).2.2 = true := by
  have H := C4_truncation_escalation pC4 c4details (86400 * 300) (86400 * 100)
    rfl (by decide) rfl (by decide) (by decide)
  refine ⟨?_, H.2.mpr (by decide)⟩
  rw [H.1]
  decide

/-- C5: the dispersion detector only matters at depth > 0 for hops that are
not verified-old.  First part: every hop of a scanner1.py trace recorded as
verified-old is not marked a distributor and its contribution is exactly the
-10 verified-old age bonus (never a dispersion penalty).  Second part: at
depth 0, or when the current address resolves as verified-old, the
iteration's outcome does not depend on the outgoing-transfer oracle at all,
so the detector's raw signal is irrelevant there. -/
theorem C5_verified_old_exemption :
    (∀ (p : Provider) (start : Option String) (h : Hop),
        h ∈ (Scanner1.trace_funding_source p start 3).chain →
        h.is_verified_old = true →
        h.is_distributor = false ∧ h.risk_contribution = -10)
    ∧ (∀ (p : Provider) (f : String → List Transfer) (depth : Nat)
          (cur : Option String) (sc : Int),
        (depth = 0 ∨ ∀ dt : AddressDetails,
            Scanner1.get_address_details p cur = some dt →
            (Scanner1.resolve_age p dt).2.2 = true) →
        Scanner1.step { p with transfersFrom := f } depth cur sc
          = Scanner1.step p depth cur sc) := by
  constructor
  · intro p start h hm hv
    have hm2 : h ∈ (runTrace (Scanner1.step p) 4 0 start 0 []).chain := by
      simpa [Scanner1.trace_funding_source] using hm
    exact runTrace_hop_pred (Scanner1.step p)
      (fun hh => hh.is_verified_old = true →
        hh.is_distributor = false ∧ hh.risk_contribution = -10)
      (Scanner1.step_verified_old p) 4 0 start 0 [] (by simp) h hm2 hv
  · intro p f depth cur sc hcond
    cases hd : Scanner1.get_address_details p cur with
    | none =>
      have hd2 : Scanner1.get_address_details { p with transfersFrom := f } cur
          = none := hd
      simp [Scanner1.step, hd, hd2]
    | some details =>
      have hd2 : Scanner1.get_address_details { p with transfersFrom := f } cur
          = some details := hd
      have hra : Scanner1.resolve_age { p with transfersFrom := f } details
          = Scanner1.resolve_age p details := rfl
      rcases hcond with h0 | hver
      · subst h0
        simp [Scanner1.step, hd, hd2, hra]
      · have hv := hver details hd
        simp [Scanner1.step, hd, hd2, hra, hv]

/-- C5 witness: in the `pC5` trace the depth-1 hop is verified old, is not
a distributor and contributes -10 even though its raw outgoing transfers
meet the distributor criteria; and a depth-0 iteration is independent of
the outgoing-transfer oracle. -/
theorem C5_verified_old_exemption_witness :
    (c5hop.is_distributor = false ∧ c5hop.risk_contribution = -10)
    ∧ Scanner1.step { pC5 with transfersFrom := fun _ => [] } 0 (some "D") 0
        = Scanner1.step pC5 0 (some "D") 0 :=
  ⟨C5_verified_old_exemption.1 pC5 (some "D") c5hop (by decide) (by decide),
   C5_verified_old_exemption.2 pC5 (fun _ => []) 0 (some "D") 0 (Or.inl rfl)⟩

/-- C1: every assessment that proceeds to aggregation reports exactly the
trace engine's accumulated total clamped by `max(0, min(100, total))`, and
that clamp lies in [0,100] for every possible unclamped total, negative
totals included (both variants). -/
theorem C1_final_score_clamped :
    (∀ t : Int, 0 ≤ final_score_clamp t ∧ final_score_clamp t ≤ 100)
    ∧ (∀ (p : Provider) (tok : String) (sc : Int) (lab : String)
        (dep : Option String) (r : String),
      Scanner1.assess_token_risk p tok = AssessResult.assessment sc lab dep r →
      sc = final_score_clamp (Scanner1.trace_funding_source p dep 3).score
        ∧ 0 ≤ sc ∧ sc ≤ 100)
    ∧ (∀ (p : Provider) (tok : String) (sc : Int) (lab : String)
        (dep : Option String) (r : String),
      Scanner0.assess_token_risk p tok = AssessResult.assessment sc lab dep r →
      sc = final_score_clamp (Scanner0.trace_funding_source p dep 3).score
        ∧ 0 ≤ sc ∧ sc ≤ 100) := by
  have hb : ∀ t : Int, 0 ≤ final_score_clamp t ∧ final_score_clamp t ≤ 100 := by
    intro t
    unfold final_score_clamp
    omega
  refine ⟨hb, ?_, ?_⟩
  · intro p tok sc lab dep r h
    simp only [Scanner1.assess_token_risk] at h
    cases hdb : Scanner1.check_database_status p tok with
    | some db => rw [hdb] at h; exact absurd h (by simp)
    | none =>
      rw [hdb] at h
      by_cases h1 : p.transfersBase tok = []
      · rw [if_pos h1] at h; exact absurd h (by simp)
      · rw [if_neg h1] at h
        by_cases h2 : (p.transfersBase tok).filter
            (fun t => t.blockTimestamp.isSome) = []
        · rw [if_pos h2] at h; exact absurd h (by simp)
        · rw [if_neg h2] at h
          cases hs : sortByKey txKey ((p.transfersBase tok).filter
              (fun t => t.blockTimestamp.isSome)) with
          | nil => rw [hs] at h; exact absurd h (by simp)
          | cons first rest =>
            rw [hs] at h
            injection h with ha hb2 hc2 hd2
            subst hc2
            exact ⟨ha.symm, by rw [← ha]; exact (hb _).1,
              by rw [← ha]; exact (hb _).2⟩
  · intro p tok sc lab dep r h
    simp only [Scanner0.assess_token_risk] at h
    cases hdb : Scanner0.check_database_status p tok with
    | some db => rw [hdb] at h; exact absurd h (by simp)
    | none =>
      rw [hdb] at h
      by_cases h1 : p.transfersBase tok = []
      · rw [if_pos h1] at h; exact absurd h (by simp)
      · rw [if_neg h1] at h
        by_cases h2 : (p.transfersBase tok).filter
            (fun t => t.blockTimestamp.isSome) = []
        · rw [if_pos h2] at h; exact absurd h (by simp)
        · rw [if_neg h2] at h
          cases hs : sortByKey txKey ((p.transfersBase tok).filter
              (fun t => t.blockTimestamp.isSome)) with
          | nil => rw [hs] at h; exact absurd h (by simp)
          | cons first rest =>
            rw [hs] at h
            injection h with ha hb2 hc2 hd2
            subst hc2
            exact ⟨ha.symm, by rw [← ha]; exact (hb _).1,
              by rw [← ha]; exact (hb _).2⟩

/-- C1 witness: on the `pAssessW` fixture both aggregators reach aggregation
and report the clamped trace totals 0 and 20. -/
theorem C1_final_score_clamped_witness :
    ((0 : Int) = final_score_clamp
        (Scanner1.trace_funding_source pAssessW (some "D") 3).score
      ∧ 0 ≤ (0 : Int) ∧ (0 : Int) ≤ 100)
    ∧ ((20 : Int) = final_score_clamp
        (Scanner0.trace_funding_source pAssessW (some "D") 3).score
      ∧ 0 ≤ (20 : Int) ∧ (20 : Int) ≤ 100) :=
  ⟨C1_final_score_clamped.2.1 pAssessW "T" 0 "LOW" (some "D")
      "No upstream funder found" (by decide),
   C1_final_score_clamped.2.2 pAssessW "T" 20 "LOW" (some "D")
      "No upstream funder found" (by decide)⟩

/-- C6: the dispersion detector returns false whenever fewer than 20
outgoing transfers are available, and otherwise returns true exactly when
the unique-receiver ratio exceeds one half and the distinct-receiver count
exceeds 20. -/
theorem C6_dispersion_detector :
    ∀ (p : Provider) (a : String), a ≠ "" →
      (((p.transfersFrom a).length < 20 →
          analyze_dispersion_pattern p (some a) = false)
        ∧ (20 ≤ (p.transfersFrom a).length →
          (analyze_dispersion_pattern p (some a) = true ↔
            (1 : ℚ) / 2
                < ((dispersionReceivers p a).length : ℚ)
                  / ((p.transfersFrom a).length : ℚ)
              ∧ 20 < (dispersionReceivers p a).length))) := by
  intro p a ha
  have ht : truthyStr (some a) = some a := by simp [truthyStr, ha]
  constructor
  · intro hlen
    simp only [analyze_dispersion_pattern, ht]
    rw [if_pos hlen]
  · intro hlen
    have hpos : (0 : ℚ) < ((p.transfersFrom a).length : ℚ) := by
      have : 0 < (p.transfersFrom a).length := by omega
      exact_mod_cast this
    have hiff : ((1 : ℚ) / 2
        < ((dispersionReceivers p a).length : ℚ)
          / ((p.transfersFrom a).length : ℚ))
        ↔ (p.transfersFrom a).length < 2 * (dispersionReceivers p a).length := by
      rw [div_lt_div_iff₀ (by norm_num) hpos, one_mul, mul_comm]
      exact_mod_cast Iff.rfl
    simp only [analyze_dispersion_pattern, ht]
    rw [if_neg (by omega)]
    constructor
    · intro htrue
      by_cases hc : 2 * (dispersionReceivers p a).length
          > (p.transfersFrom a).length
          ∧ (dispersionReceivers p a).length > 20
      · exact ⟨hiff.mpr hc.1, hc.2⟩
      · rw [if_neg hc] at htrue
        exact absurd htrue (by simp)
    · intro hcond
      rw [if_pos ⟨hiff.mp hcond.1, hcond.2⟩]

/-- C6 witness: 15 transfers to 15 unique receivers are below the minimum
sample and yield false by the detector contract; 25 transfers to 21 unique
receivers yield true; 25 transfers to 10 unique receivers yield false. -/
theorem C6_dispersion_detector_witness :
    analyze_dispersion_pattern pDisp15 (some "A") = false
    ∧ analyze_dispersion_pattern pDisp21 (some "A") = true
    ∧ analyze_dispersion_pattern pDisp10 (some "A") = false :=
  ⟨(C6_dispersion_detector pDisp15 "A" (by decide)).1 (by decide),
   by decide, by decide⟩

/-- C7 (amended): for an entity lookup whose entity dict is present and
whose combined entity+label text matches neither keyword list, the
scanner1.py classifier returns a Known verdict with label Low and score 10
(strictly between 0 and 10 inclusive), but the Scanner.py classifier
returns the same verdict with score exactly 0, indistinguishable by score
from a verified trusted issuer. -/
theorem C7_established_project_score :
    ∀ (p : Provider) (tok : String) (info : IntelInfo) (nm : Option String),
      p.intelligence tok = some info →
      info.entity = some nm →
      (∀ b ∈ Scanner1.bad_keywords,
        strContains (lowerStr (nameOrUnknown info.entity ++ " "
          ++ nameOrUnknown info.label)) b = false) →
      (∀ g ∈ Scanner1.cex_keywords,
        strContains (lowerStr (nameOrUnknown info.entity ++ " "
          ++ nameOrUnknown info.label)) g = false) →
      (∀ b ∈ Scanner0.bad_keywords,
        strContains (lowerStr (nameOrUnknown info.entity ++ " "
          ++ nameOrUnknown info.label)) b = false) →
      (∀ g ∈ Scanner0.cex_keywords,
        strContains (lowerStr (nameOrUnknown info.entity ++ " "
          ++ nameOrUnknown info.label)) g = false) →
      (((Scanner1.check_database_status p tok).map
          (fun s => (s.risk_score, s.label)) = some (10, "LOW"))
        ∧ (0 : Int) < 10 ∧ (10 : Int) ≤ 10)
      ∧ ((Scanner0.check_database_status p tok).map
          (fun s => (s.risk_score, s.label)) = some (0, "LOW")) := by
  intro p tok info nm hint hent hb1 hg1 hb0 hg0
  have hne : ¬ (info.entity = none ∧ info.label = none) := by simp [hent]
  have hsome : info.entity.isSome = true := by rw [hent]; rfl
  have anyFalse : ∀ (l : List String) (f : String → Bool),
      (∀ b ∈ l, f b = false) → l.any f = false := by
    intro l f hf
    rw [List.any_eq_false]
    intro x hx
    simp [hf x hx]
  have h1bad := anyFalse Scanner1.bad_keywords _ hb1
  have h1cex := anyFalse Scanner1.cex_keywords _ hg1
  have h0bad := anyFalse Scanner0.bad_keywords _ hb0
  have h0cex := anyFalse Scanner0.cex_keywords _ hg0
  refine ⟨⟨?_, by norm_num, by norm_num⟩, ?_⟩
  · simp only [Scanner1.check_database_status, hint]
    rw [if_neg hne, if_neg (by simp [h1bad]), if_neg (by simp [h1cex]),
      if_pos hsome]
    rfl
  · simp only [Scanner0.check_database_status, hint]
    rw [if_neg hne, if_neg (by simp [h0bad]), if_neg (by simp [h0cex]),
      if_pos hsome]
    rfl

/-- C7 witness: the entity "Raydium" with no attached label matches no
keyword; scanner1.py scores it 10, Scanner.py scores it 0. -/
theorem C7_established_project_score_witness :
    (((Scanner1.check_database_status pC7 "T").map
        (fun s => (s.risk_score, s.label)) = some (10, "LOW"))
      ∧ (0 : Int) < 10 ∧ (10 : Int) ≤ 10)
    ∧ ((Scanner0.check_database_status pC7 "T").map
        (fun s => (s.risk_score, s.label)) = some (0, "LOW")) :=
  C7_established_project_score pC7 "T" ⟨some (some "Raydium"), none⟩
    (some "Raydium") (by decide) rfl (by decide) (by decide) (by decide)
    (by decide)

/-- C7 counterexample: Scanner.py returns risk score exactly 0 for the
merely-named entity "Raydium" (the claim requires a score strictly greater
than 0); moreover a non-empty combined name text coming only from a label
(entity dict absent) yields no Known verdict at all in either variant. -/
theorem C7_counterexample :
    (Scanner0.check_database_status pC7 "T").map
        (fun s => (s.risk_score, s.label, s.status)) = some (0, "LOW", "KNOWN")
    ∧ Scanner0.check_database_status pC7 "U" = none
    ∧ Scanner1.check_database_status pC7 "U" = none := by decide

/-- C8: when the database pre-check passes and the token's very first
transfer lookup yields no usable history (no records, or none with a
timestamp), both variants return a token-level structured error object,
which is a different constructor from any score-bearing result, so an
absence-of-data outcome never renders as a score-0 / Low-risk
assessment. -/
theorem C8_missing_history_error :
    (∀ (p : Provider) (tok : String),
      Scanner1.check_database_status p tok = none →
      p.transfersBase tok = [] →
      Scanner1.assess_token_risk p tok
        = AssessResult.tokenError "No token history found")
    ∧ (∀ (p : Provider) (tok : String),
      Scanner1.check_database_status p tok = none →
      p.transfersBase tok ≠ [] →
      (p.transfersBase tok).filter (fun t => t.blockTimestamp.isSome) = [] →
      Scanner1.assess_token_risk p tok
        = AssessResult.tokenError "No valid timestamp data")
    ∧ (∀ (p : Provider) (tok : String),
      Scanner0.check_database_status p tok = none →
      p.transfersBase tok = [] →
      Scanner0.assess_token_risk p tok
        = AssessResult.tokenError "No token history found")
    ∧ (∀ (p : Provider) (tok : String),
      Scanner0.check_database_status p tok = none →
      p.transfersBase tok ≠ [] →
      (p.transfersBase tok).filter (fun t => t.blockTimestamp.isSome) = [] →
      Scanner0.assess_token_risk p tok
        = AssessResult.tokenError "No valid timestamp data")
    ∧ (∀ (msg : String) (sc2 : Int) (lab : String) (dep : Option String)
        (r : String),
      AssessResult.tokenError msg ≠ AssessResult.assessment sc2 lab dep r)
    ∧ (∀ (msg : String) (sc2 : Int) (lab : String) (fl : List String),
      AssessResult.tokenError msg ≠ AssessResult.dbResult sc2 lab fl) := by
  refine ⟨?_, ?_, ?_, ?_, ?_, ?_⟩
  · intro p tok hdb he
    simp [Scanner1.assess_token_risk, hdb, he]
  · intro p tok hdb hne hv
    simp [Scanner1.assess_token_risk, hdb, hne, hv]
  · intro p tok hdb he
    simp [Scanner0.assess_token_risk, hdb, he]
  · intro p tok hdb hne hv
    simp [Scanner0.assess_token_risk, hdb, hne, hv]
  · intro msg sc2 lab dep r
    simp
  · intro msg sc2 lab fl
    simp

/-- C8 witness: with no data at all, both variants return the structured
"No token history found" error. -/
theorem C8_missing_history_error_witness :
    Scanner1.assess_token_risk pEmpty "T"
      = AssessResult.tokenError "No token history found"
    ∧ Scanner0.assess_token_risk pEmpty "T"
      = AssessResult.tokenError "No token history found" :=
  ⟨C8_missing_history_error.1 pEmpty "T" rfl rfl,
   C8_missing_history_error.2.2.1 pEmpty "T" rfl rfl⟩
